import Mathlib

/-!
Shallow embedding of the projection-rendering core of the
`30DayMapChallenge-19_Projections` repository.

The embedding follows the source files:
* `src/stores/dataStore.js` — projection catalog, `findLayerById`,
  `isHomeCountry`, store-level `changeProjection`;
* `src/views/HomeView.vue` — the view-controller state
  (`currentProjection` / `centerMode` / `viewMode`) and its transitions
  `setCenterMode`, `setViewMode`, `changeProjection`;
* `src/tabs/MapTab.vue` (final variant, concatenated into
  `HomeView.vue`) — `createProjection` (rotation, padded extent, the
  family-specific fitting branches and the manual fallback),
  `changeProjection`, `invalidateSize`, and the render layer functions
  `renderSphereBorder`, `renderCountries`, `renderGridLines`,
  `renderTaiwanGuides`.

Geometry supplied by the external d3 library (projection math,
`fitExtent`, path generation, the selection data join) is modelled
symbolically: a configured projection is a record of the configuration
decisions the code makes, a rendered path datum is the pair
(configuration, geometry), and the d3 data join is modelled by its
documented key-matching semantics.
-/

namespace DataStore

/-- One projection descriptor from the `layers` catalog in
`dataStore.js` (fields `layerId`, `layerName`, `type`, `scale`,
`shape`). -/
structure Layer where
  layerId : String
  layerName : String
  type : String
  scale : ℚ
  shape : String
deriving DecidableEq

/-- One group of the `layers` array (`groupName`, `groupLayers`). -/
structure LayerGroup where
  groupName : String
  groupLayers : List Layer
deriving DecidableEq

/-! The catalog entries of the single `地圖投影` group, in source
order (dataStore.js lines 41–756), split into three parts to keep
list literals small. -/

/-- Catalog entries, part 1 (source order). -/
def catalogPart1 : List Layer := [
⟨"AzimuthalEqualArea", "Azimuthal Equal Area", "AzimuthalEqualArea", 100, "●"⟩,
  ⟨"AzimuthalEquidistant", "Azimuthal Equidistant", "AzimuthalEquidistant", 80, "●"⟩,
  ⟨"Gnomonic", "Gnomonic", "Gnomonic", 100, "●"⟩,
  ⟨"Orthographic", "Orthographic", "Orthographic", 160, "●"⟩,
  ⟨"Stereographic", "Stereographic", "Stereographic", 80, "●"⟩,
  ⟨"Albers", "Albers", "Albers", 120, "◐"⟩,
  ⟨"ConicConformal", "Conic Conformal", "ConicConformal", 100, "◐"⟩,
  ⟨"ConicEqualArea", "Conic Equal Area", "ConicEqualArea", 100, "◐"⟩,
  ⟨"ConicEquidistant", "Conic Equidistant", "ConicEquidistant", 100, "◐"⟩,
  ⟨"Equirectangular", "Equirectangular", "Equirectangular", 80, "▭"⟩,
  ⟨"Mercator", "Mercator", "Mercator", 70, "▭"⟩,
  ⟨"TransverseMercator", "Transverse Mercator", "TransverseMercator", 70, "▭"⟩,
  ⟨"NaturalEarth", "Natural Earth", "NaturalEarth", 100, "⬭"⟩,
  ⟨"Airy", "Airy", "Airy", 100, "⬭"⟩,
  ⟨"Aitoff", "Aitoff", "Aitoff", 100, "⬭"⟩,
  ⟨"Armadillo", "Armadillo", "Armadillo", 100, "⬬"⟩,
  ⟨"August", "August", "August", 100, "⬭"⟩,
  ⟨"Baker", "Baker", "Baker", 100, "⬭"⟩,
  ⟨"Berghaus", "Berghaus", "Berghaus", 100, "●"⟩,
  ⟨"Bertin1953", "Bertin 1953", "Bertin1953", 100, "⬭"⟩,
  ⟨"Boggs", "Boggs", "Boggs", 100, "⬭"⟩,
  ⟨"Bonne", "Bonne", "Bonne", 100, "❤"⟩,
  ⟨"Bottomley", "Bottomley", "Bottomley", 100, "⬭"⟩,
  ⟨"Bromley", "Bromley", "Bromley", 100, "⬭"⟩,
  ⟨"Chamberlin", "Chamberlin", "Chamberlin", 100, "⬭"⟩,
  ⟨"ChamberlinAfrica", "Chamberlin Africa", "ChamberlinAfrica", 100, "⬭"⟩,
  ⟨"Collignon", "Collignon", "Collignon", 100, "⬬"⟩,
  ⟨"Craig", "Craig", "Craig", 100, "⬭"⟩,
  ⟨"Craster", "Craster Parabolic", "Craster", 100, "⬭"⟩,
  ⟨"CylindricalEqualArea", "Cylindrical Equal Area", "CylindricalEqualArea", 100, "▭"⟩,
  ⟨"CylindricalStereographic", "Cylindrical Stereographic", "CylindricalStereographic", 100, "▭"⟩,
  ⟨"Eckert1", "Eckert I", "Eckert1", 100, "⬭"⟩,
  ⟨"Eckert2", "Eckert II", "Eckert2", 100, "⬭"⟩,
  ⟨"Eckert3", "Eckert III", "Eckert3", 100, "⬭"⟩]

/-- Catalog entries, part 2 (source order). -/
def catalogPart2 : List Layer := [
  ⟨"Eckert4", "Eckert IV", "Eckert4", 100, "⬭"⟩,
  ⟨"Eckert5", "Eckert V", "Eckert5", 100, "⬭"⟩,
  ⟨"Eckert6", "Eckert VI", "Eckert6", 100, "⬭"⟩,
  ⟨"Eisenlohr", "Eisenlohr", "Eisenlohr", 100, "⬭"⟩,
  ⟨"Fahey", "Fahey", "Fahey", 100, "⬭"⟩,
  ⟨"Foucaut", "Foucaut", "Foucaut", 100, "⬭"⟩,
  ⟨"FoucautSinusoidal", "Foucaut Sinusoidal", "FoucautSinusoidal", 100, "⬭"⟩,
  ⟨"Gilbert", "Gilbert", "Gilbert", 100, "⬭"⟩,
  ⟨"Gingery", "Gingery", "Gingery", 100, "⬬"⟩,
  ⟨"Ginzburg4", "Ginzburg IV", "Ginzburg4", 100, "⬭"⟩,
  ⟨"Ginzburg5", "Ginzburg V", "Ginzburg5", 100, "⬭"⟩,
  ⟨"Ginzburg6", "Ginzburg VI", "Ginzburg6", 100, "⬭"⟩,
  ⟨"Ginzburg8", "Ginzburg VIII", "Ginzburg8", 100, "⬭"⟩,
  ⟨"Ginzburg9", "Ginzburg IX", "Ginzburg9", 100, "⬭"⟩,
  ⟨"Gringorten", "Gringorten", "Gringorten", 100, "⬭"⟩,
  ⟨"GringortenQuincuncial", "Gringorten Quincuncial", "GringortenQuincuncial", 100, "⬬"⟩,
  ⟨"Guyou", "Guyou", "Guyou", 100, "⬬"⟩,
  ⟨"Hammer", "Hammer", "Hammer", 100, "⬭"⟩,
  ⟨"HammerRetroazimuthal", "Hammer Retroazimuthal", "HammerRetroazimuthal", 100, "⬬"⟩,
  ⟨"Healpix", "HEALPix", "Healpix", 100, "⬡"⟩,
  ⟨"Hill", "Hill", "Hill", 100, "⬭"⟩,
  ⟨"Homolosine", "Homolosine", "Homolosine", 100, "⬭"⟩,
  ⟨"Hufnagel", "Hufnagel", "Hufnagel", 100, "⬭"⟩,
  ⟨"Hyperelliptical", "Hyperelliptical", "Hyperelliptical", 100, "⬭"⟩,
  ⟨"InterruptedBoggs", "Interrupted Boggs", "InterruptedBoggs", 100, "⬬"⟩,
  ⟨"InterruptedHomolosine", "Interrupted Homolosine", "InterruptedHomolosine", 100, "⬬"⟩,
  ⟨"InterruptedMollweide", "Interrupted Mollweide", "InterruptedMollweide", 100, "⬬"⟩,
  ⟨"InterruptedMollweideHemispheres", "Interrupted Mollweide Hemispheres", "InterruptedMollweideHemispheres", 100, "⬬"⟩,
  ⟨"InterruptedQuarticAuthalic", "Interrupted Quartic Authalic", "InterruptedQuarticAuthalic", 100, "⬬"⟩,
  ⟨"InterruptedSinuMollweide", "Interrupted Sinu-Mollweide", "InterruptedSinuMollweide", 100, "⬬"⟩,
  ⟨"InterruptedSinusoidal", "Interrupted Sinusoidal", "InterruptedSinusoidal", 100, "⬬"⟩,
  ⟨"Kavrayskiy7", "Kavrayskiy VII", "Kavrayskiy7", 100, "⬭"⟩,
  ⟨"Lagrange", "Lagrange", "Lagrange", 100, "⬭"⟩,
  ⟨"Larrivee", "Larrivee", "Larrivee", 100, "⬭"⟩]

/-- Catalog entries, part 3 (source order). -/
def catalogPart3 : List Layer := [
  ⟨"Laskowski", "Laskowski", "Laskowski", 100, "⬭"⟩,
  ⟨"Littrow", "Littrow", "Littrow", 100, "⬭"⟩,
  ⟨"Loximuthal", "Loximuthal", "Loximuthal", 100, "⬭"⟩,
  ⟨"Miller", "Miller", "Miller", 100, "⬭"⟩,
  ⟨"Mollweide", "Mollweide", "Mollweide", 100, "⬭"⟩,
  ⟨"MtFlatPolarParabolic", "McBryde-Thomas Flat-Polar Parabolic", "MtFlatPolarParabolic", 100, "⬭"⟩,
  ⟨"MtFlatPolarQuartic", "McBryde-Thomas Flat-Polar Quartic", "MtFlatPolarQuartic", 100, "⬭"⟩,
  ⟨"MtFlatPolarSinusoidal", "McBryde-Thomas Flat-Polar Sinusoidal", "MtFlatPolarSinusoidal", 100, "⬭"⟩,
  ⟨"NaturalEarth2", "Natural Earth II", "NaturalEarth2", 100, "⬭"⟩,
  ⟨"NellHammer", "Nell-Hammer", "NellHammer", 100, "⬭"⟩,
  ⟨"Nicolosi", "Nicolosi", "Nicolosi", 100, "●"⟩,
  ⟨"Patterson", "Patterson", "Patterson", 100, "⬭"⟩,
  ⟨"PeirceQuincuncial", "Peirce Quincuncial", "PeirceQuincuncial", 100, "⬬"⟩,
  ⟨"Polyconic", "Polyconic", "Polyconic", 100, "⬭"⟩,
  ⟨"PolyhedralButterfly", "Polyhedral Butterfly", "PolyhedralButterfly", 100, "⬬"⟩,
  ⟨"PolyhedralCollignon", "Polyhedral Collignon", "PolyhedralCollignon", 100, "⬡"⟩,
  ⟨"PolyhedralWaterman", "Polyhedral Waterman", "PolyhedralWaterman", 100, "⬡"⟩,
  ⟨"RectangularPolyconic", "Rectangular Polyconic", "RectangularPolyconic", 100, "⬭"⟩,
  ⟨"Robinson", "Robinson", "Robinson", 100, "⬭"⟩,
  ⟨"Satellite", "Satellite", "Satellite", 100, "⬬"⟩,
  ⟨"SinuMollweide", "Sinu-Mollweide", "SinuMollweide", 100, "⬭"⟩,
  ⟨"Sinusoidal", "Sinusoidal", "Sinusoidal", 100, "⬭"⟩,
  ⟨"Times", "Times", "Times", 100, "⬭"⟩,
  ⟨"TwoPointAzimuthal", "Two-Point Azimuthal", "TwoPointAzimuthal", 100, "⬬"⟩,
  ⟨"TwoPointEquidistant", "Two-Point Equidistant", "TwoPointEquidistant", 100, "⬬"⟩,
  ⟨"VanDerGrinten", "Van der Grinten", "VanDerGrinten", 100, "●"⟩,
  ⟨"VanDerGrinten2", "Van der Grinten II", "VanDerGrinten2", 100, "⬭"⟩,
  ⟨"VanDerGrinten3", "Van der Grinten III", "VanDerGrinten3", 100, "⬭"⟩,
  ⟨"VanDerGrinten4", "Van der Grinten IV", "VanDerGrinten4", 100, "⬭"⟩,
  ⟨"Wagner4", "Wagner IV", "Wagner4", 100, "⬭"⟩,
  ⟨"Wagner6", "Wagner VI", "Wagner6", 100, "⬭"⟩,
  ⟨"Wagner7", "Wagner VII", "Wagner7", 100, "⬭"⟩,
  ⟨"Wiechel", "Wiechel", "Wiechel", 100, "⬬"⟩,
  ⟨"Winkel3", "Winkel Tripel", "Winkel3", 100, "⬭"⟩]

/-- The full projection catalog list, in source order. -/
def projectionCatalog : List Layer := catalogPart1 ++ catalogPart2 ++ catalogPart3

/-- The `layers` array of `dataStore.js`: a single group holding the
whole projection catalog. -/
def layers : List LayerGroup := [⟨"地圖投影", projectionCatalog⟩]

/-- `dataStore.layers[0].groupLayers`, the list HomeView's
`projections` computed ref exposes. -/
def projectionsList : List Layer :=
  match layers with
  | g :: _ => g.groupLayers
  | [] => []

/-- `homeCountry` ref (dataStore.js line 765). -/
def homeCountry : String := "Taiwan"

/-- Executable model of the JavaScript built-in
`String.prototype.trim`: drop leading and trailing whitespace
characters. -/
def jsTrim (s : String) : String :=
  ⟨((s.data.dropWhile Char.isWhitespace).reverse.dropWhile Char.isWhitespace).reverse⟩

/-- `isHomeCountry(countryName)` (dataStore.js lines 773–776).
`none` stands for a JavaScript `null`/`undefined` argument; the
JavaScript falsiness test `!countryName` is also true for the empty
string. -/
def isHomeCountry : Option String → Bool
  | none => false
  | some name => if name = "" then false else jsTrim name == homeCountry

/-- `findLayerById(layerId)` (dataStore.js lines 793–805): nested
first-match search over all groups and their layers. -/
def findLayerById (layerId : String) : Option Layer :=
  layers.findSome? (fun group => group.groupLayers.find? (fun l => l.layerId == layerId))

end DataStore

namespace HomeView

/-- The HomeView session refs (`currentProjection`, `centerMode`,
`viewMode` — HomeView.vue lines 62–64). `currentProjection` holds a
`layerName`. -/
structure ViewState where
  currentProjection : String
  centerMode : String
  viewMode : String
deriving DecidableEq

/-- The initial ref values (HomeView.vue lines 62–64). -/
def initViewState : ViewState :=
  { currentProjection := "Azimuthal Equidistant", centerMode := "origin", viewMode := "world" }

/-- `setCenterMode(mode)` (HomeView.vue lines 66–72): the ref update;
the map side effect is replayed on the MapTab state elsewhere. -/
def setCenterMode (s : ViewState) (mode : String) : ViewState :=
  { s with centerMode := mode }

/-- `setViewMode(mode)` (HomeView.vue lines 74–83): normalises the
mode, stores it, and when the result is `taiwan` also calls
`setCenterMode('taiwan')`. -/
def setViewMode (s : ViewState) (mode : String) : ViewState :=
  let vm := if mode == "taiwan" then "taiwan" else "world"
  let s1 := { s with viewMode := vm }
  if vm == "taiwan" then setCenterMode s1 "taiwan" else s1

end HomeView

namespace MapTab

/-- `TAIWAN_CENTER` (MapTab section, HomeView.vue line 466). -/
def TAIWAN_CENTER : ℚ × ℚ := (120.9820246, 23.9738747)

/-- `centerPresets` (lines 499–503): preset coordinates per center
mode; unknown modes are absent. -/
def centerPresets (mode : String) : Option (ℚ × ℚ) :=
  if mode == "origin" then some (0, 0)
  else if mode == "taiwan" then some TAIWAN_CENTER
  else if mode == "lon120" then some ((120 : ℚ), 0)
  else none

/-- The MapTab component refs that feed `createProjection`
(lines 497–509). -/
structure MapState where
  currentProjectionType : String
  currentScale : ℚ
  currentCenterMode : String
  currentCenterCoords : ℚ × ℚ
  currentViewMode : String
  conicConformalScale : ℚ
deriving DecidableEq

/-- Initial ref values (lines 497–509): azimuthal-equidistant at scale
80, origin center, world view, conic-conformal multiplier 5000. -/
def initMapState : MapState :=
  { currentProjectionType := "AzimuthalEquidistant", currentScale := 80,
    currentCenterMode := "origin", currentCenterCoords := (0, 0),
    currentViewMode := "world", conicConformalScale := 5000 }

/-- The object `getFitTarget` can return (line 1174): always the
GeoJSON `{ type: 'Sphere' }` outline. -/
inductive FitTarget
  | sphere
deriving DecidableEq

/-- `getFitTarget` (line 1174): constant, independent of the view
mode. -/
def getFitTarget : FitTarget := FitTarget.sphere

/-- The fixed fit padding (line 852). -/
def padding : ℚ := 32

/-- The padded fit extent (lines 853–856):
`[[padding, padding], [width - padding, height - padding]]`. -/
def extentFor (width height : ℚ) : (ℚ × ℚ) × (ℚ × ℚ) :=
  ((padding, padding), (width - padding, height - padding))

/-- `supportsCenterMethod` (lines 869–877). -/
def supportsCenterMethod : List String :=
  ["Albers", "ConicEqualArea", "ConicEquidistant", "AzimuthalEqualArea",
   "AzimuthalEquidistant", "Gnomonic", "Orthographic"]

/-- Capabilities and failure behaviour of the externally constructed
d3 projection object: which of `rotate` / `fitExtent` / `center` /
`scale` / `translate` it exposes, and whether the fitting computation
or the fallback application raises. -/
structure ProjCaps where
  hasRotate : Bool
  rotateRaises : Bool
  hasFitExtent : Bool
  hasCenter : Bool
  hasScale : Bool
  hasTranslate : Bool
  fitRaises : Bool
  fallbackRaises : Bool
deriving DecidableEq

/-- A fully capable, non-raising d3 projection (the common case for
every catalogued d3 constructor). -/
def fullCaps : ProjCaps :=
  { hasRotate := true, rotateRaises := false, hasFitExtent := true, hasCenter := true,
    hasScale := true, hasTranslate := true, fitRaises := false, fallbackRaises := false }

/-- Which configuration path of `createProjection` (lines 879–904)
ran. -/
inductive FitMethod
  | conicConformalFit
  | centeredFit
  | plainFit
  | manualScaleTranslate
  | fallbackScaleTranslate
  | unconfigured
deriving DecidableEq

/-- The observable outcome of the fitting stage: the branch taken, the
object and extent passed to `fitExtent` (when it ran), the post-fit
rescale multiplier (conic-conformal only), the manual scale/translate
(fallback paths), and whether an exception escapes. -/
structure FitResult where
  method : FitMethod
  target : Option FitTarget
  extent : Option ((ℚ × ℚ) × (ℚ × ℚ))
  rescale : Option ℚ
  manualScale : Option ℚ
  manualTranslate : Option (ℚ × ℚ)
  propagates : Bool
deriving DecidableEq

/-- The fitting stage of `createProjection` (HomeView.vue lines
879–904), as a total function: the outer `try` around the three
`fitExtent` branches, the `else if (proj.scale && proj.translate)`
manual branch, and the `catch` that retries a guarded manual
scale/translate inside its own `try`/`catch`. -/
def applyFitStage (type : String) (viewMode : String) (caps : ProjCaps)
    (width height : ℚ) (conicScale : ℚ) : FitResult :=
  if caps.hasFitExtent then
    if caps.fitRaises then
      if caps.hasScale && caps.hasTranslate then
        if caps.fallbackRaises then
          ⟨.unconfigured, none, none, none, none, none, false⟩
        else
          ⟨.fallbackScaleTranslate, none, none, none,
            some (min width height / 2 - padding), some (width / 2, height / 2), false⟩
      else
        ⟨.unconfigured, none, none, none, none, none, false⟩
    else if type == "ConicConformal" then
      ⟨.conicConformalFit, some getFitTarget, some (extentFor width height),
        some conicScale, none, none, false⟩
    else if supportsCenterMethod.contains type && caps.hasCenter && viewMode == "world" then
      ⟨.centeredFit, some getFitTarget, some (extentFor width height),
        none, none, none, false⟩
    else
      ⟨.plainFit, some getFitTarget, some (extentFor width height),
        none, none, none, false⟩
  else if caps.hasScale && caps.hasTranslate then
    ⟨.manualScaleTranslate, none, none, none,
      some (min width height / 2 - padding), some (width / 2, height / 2), false⟩
  else
    ⟨.unconfigured, none, none, none, none, none, false⟩

/-- The scale of the projection after the fitting stage, given the
scale the raw fit produced (lines 882–884: conic-conformal multiplies
the fitted scale by the stored multiplier, every other branch keeps
it). -/
def postFitScale (r : FitResult) (fittedScale : ℚ) : ℚ :=
  match r.rescale with
  | some m => fittedScale * m
  | none => fittedScale

/-- The rotation vector `[-centerLon, -centerLat, 0]` (lines
522–523). -/
def rotationFor (coords : ℚ × ℚ) : ℚ × ℚ × ℚ := (-coords.1, -coords.2, 0)

/-- The configured projection `createProjection` returns (lines
520–907): the chosen type, the applied rotation (when `rotate` exists
and does not raise, lines 860–867), and the fitting outcome. -/
structure ProjConfig where
  type : String
  rotation : Option (ℚ × ℚ × ℚ)
  fit : FitResult
deriving DecidableEq

/-- `createProjection(type, width, height)` (lines 520–907), reading
the component refs from `s`. -/
def createProjection (caps : ProjCaps) (s : MapState) (type : String)
    (width height : ℚ) : ProjConfig :=
  { type := type
  , rotation :=
      if caps.hasRotate && !caps.rotateRaises
      then some (rotationFor s.currentCenterCoords) else none
  , fit := applyFitStage type s.currentViewMode caps width height s.conicConformalScale }

end MapTab

namespace MapTab

/-- A geometry datum handed to the d3 path generator: the sphere
outline, a country feature's polygon geometry (kept opaque), or one of
the generated guide lines. -/
inductive Geom
  | sphere
  | country (shape : String)
  | meridian (lon : ℚ)
  | parallel (lat : ℚ)
deriving DecidableEq

/-- `d3.geoPath().projection(projection)` applied to a geometry,
modelled extensionally as the pair (projection configuration,
geometry): equal configurations and equal geometry produce equal
rendered path strings. -/
abbrev PathData := ProjConfig × Geom

/-- One rendered SVG path element: its class, its data-join key, its
path data, and the paint attributes the render functions assign. -/
structure Elem where
  cls : String
  key : String
  d : PathData
  fill : String
  stroke : String
  strokeWidth : Option ℚ
  opacity : Option ℚ
deriving DecidableEq

/-- One GeoJSON country feature as the code reads it: the alternative
name properties (absent modelled as `none`), the optional feature id,
and the polygon geometry. -/
structure Feature where
  propName : Option String
  propADMIN : Option String
  propNAME : Option String
  propAdm0A3 : Option String
  propADM0A3 : Option String
  propISOA3 : Option String
  propIsoA3 : Option String
  fid : Option String
  geom : String
deriving DecidableEq

/-- JavaScript `a || b` over nullable string properties: `null`,
`undefined` and the empty string are falsy. -/
def jsOr (a b : Option String) : Option String :=
  match a with
  | some s => if s = "" then b else some s
  | none => b

/-- `featureKey(feature, index)` (lines 1176–1185): the `||` chain
over `ADM0_A3`, `adm0_a3`, `ISO_A3`, `iso_a3`, `NAME`, `ADMIN`,
`name`, `feature.id`, falling back to `idx-<index>`. -/
def featureKey (f : Feature) (index : Nat) : String :=
  (jsOr f.propADM0A3 (jsOr f.propAdm0A3 (jsOr f.propISOA3 (jsOr f.propIsoA3
    (jsOr f.propNAME (jsOr f.propADMIN (jsOr f.propName f.fid))))))).getD
    ("idx-" ++ toString index)

/-- The name `getFeaturesForView` tests (lines 1161–1166):
`name || ADMIN || NAME || adm0_a3 || ADM0_A3`. -/
def viewCountryName (f : Feature) : Option String :=
  jsOr f.propName (jsOr f.propADMIN (jsOr f.propNAME (jsOr f.propAdm0A3 f.propADM0A3)))

/-- The name `renderCountries` colors by (lines 1214–1216):
`name || ADMIN || NAME`. -/
def fillCountryName (f : Feature) : Option String :=
  jsOr f.propName (jsOr f.propADMIN f.propNAME)

/-- `getFeaturesForView()` (lines 1155–1172): in taiwan view keep only
the home-country features, otherwise all features. -/
def getFeaturesForView (viewMode : String) (world : List Feature) : List Feature :=
  if viewMode == "taiwan" then
    world.filter (fun f => DataStore.isHomeCountry (viewCountryName f))
  else world

/-- Attribute assignment on a merged d3 selection: each element's
attributes are recomputed from the first data item carrying its key;
an element whose key has no data item is left as-is (this case never
arises after a join). -/
def reattr {α : Type} (key : α → String) (render : α → Elem) (data : List α)
    (e : Elem) : Elem :=
  match data.find? (fun a => key a == e.key) with
  | some a => render a
  | none => e

/-- The d3 keyed data join
(`selection.data(data, key)` / `exit().remove()` /
`enter().append().merge(update)` / attribute assignment): elements
whose key is absent from the data are removed, update elements keep
their position, enter elements are appended in data order, and every
surviving element's attributes are recomputed from its bound datum. -/
def dataJoin {α : Type} (key : α → String) (render : α → Elem)
    (existing : List Elem) (data : List α) : List Elem :=
  (existing.filter (fun e => data.any (fun a => key a == e.key)) ++
    (data.filter (fun a => !existing.any (fun e => e.key == key a))).map render).map
    (reattr key render data)

/-- The sphere outline path `renderSphereBorder` appends (lines
1191–1198). -/
def sphereElem (cfg : ProjConfig) : Elem :=
  { cls := "sphere", key := "Sphere", d := (cfg, Geom.sphere),
    fill := "none", stroke := "#999999", strokeWidth := some 2, opacity := none }

/-- `renderSphereBorder()` (lines 1187–1199): remove every
`path.sphere` from the border group, then append one sphere outline
path. -/
def renderSphereBorder (cfg : ProjConfig) (border : List Elem) : List Elem :=
  border.filter (fun e => !(e.cls == "sphere")) ++ [sphereElem cfg]

/-- The country path element `renderCountries` produces for an
(index, feature) pair (lines 1206–1220): red fill for the home
country, grey otherwise, no stroke. -/
def countryElem (cfg : ProjConfig) (p : Nat × Feature) : Elem :=
  { cls := "country", key := featureKey p.2 p.1, d := (cfg, Geom.country p.2.geom),
    fill := if DataStore.isHomeCountry (fillCountryName p.2) then "#ff0000" else "#999999",
    stroke := "none", strokeWidth := none, opacity := none }

/-- `renderCountries()` (lines 1201–1221): keyed data join of the
view's features onto the `path.country` selection. -/
def renderCountries (cfg : ProjConfig) (viewMode : String) (world : List Feature)
    (countries : List Elem) : List Elem :=
  dataJoin (fun p => featureKey p.2 p.1) (countryElem cfg) countries
    ((getFeaturesForView viewMode world).enum)

/-- One guide-line datum of `renderTaiwanGuides` (lines 1226–1249). -/
structure Guide where
  gid : String
  geom : Geom
deriving DecidableEq

/-- `createMeridian(lon, id)` (lines 1226–1232). -/
def createMeridian (lon : ℚ) (gid : String) : Guide := ⟨gid, Geom.meridian lon⟩

/-- `createParallel(lat, id)` (lines 1234–1240). -/
def createParallel (lat : ℚ) (gid : String) : Guide := ⟨gid, Geom.parallel lat⟩

/-- `guidesData` (lines 1242–1249): the six reference lines. -/
def guidesData : List Guide :=
  [createMeridian TAIWAN_CENTER.1 "guide-longitude-taiwan-east",
   createMeridian (TAIWAN_CENTER.1 - 180) "guide-longitude-taiwan-west",
   createParallel TAIWAN_CENTER.2 "guide-latitude-taiwan",
   createMeridian 0 "guide-longitude-0-east",
   createMeridian (-180) "guide-longitude-0-west",
   createParallel 0 "guide-equator"]

/-- The guide path element (lines 1257–1275): green for the
prime-meridian/equator guides, blue for the Taiwan guides. -/
def guideElem (cfg : ProjConfig) (gd : Guide) : Elem :=
  { cls := "taiwan-guide", key := gd.gid, d := (cfg, gd.geom),
    fill := "none",
    stroke :=
      if gd.gid == "guide-longitude-0-east" || gd.gid == "guide-longitude-0-west" ||
          gd.gid == "guide-equator" then "#44b046" else "#366cb4",
    strokeWidth := some 4, opacity := some 0.9 }

/-- `renderTaiwanGuides()` (lines 1223–1276): keyed data join of the
six guides onto the `path.taiwan-guide` selection. -/
def renderTaiwanGuides (cfg : ProjConfig) (guides : List Elem) : List Elem :=
  dataJoin Guide.gid (guideElem cfg) guides guidesData

/-- `renderGridLines()` (lines 1278–1281): remove every
`path.grid-line`; nothing is drawn. -/
def renderGridLines (grid : List Elem) : List Elem :=
  grid.filter (fun e => !(e.cls == "grid-line"))

/-- The rendered surface, one list of path elements per class-scoped
selection (`path.sphere` in the border group; `path.country`,
`path.taiwan-guide`, `path.grid-line` in the clipped group). -/
structure Dom where
  border : List Elem
  countries : List Elem
  guides : List Elem
  grid : List Elem
deriving DecidableEq

/-- The render sequence every rebuild runs (lines 943–946 and
1339–1342): `renderSphereBorder`, `renderCountries`,
`renderGridLines`, `renderTaiwanGuides`. -/
def renderAll (cfg : ProjConfig) (viewMode : String) (world : List Feature)
    (dom : Dom) : Dom :=
  { border := renderSphereBorder cfg dom.border
  , countries := renderCountries cfg viewMode world dom.countries
  , guides := renderTaiwanGuides cfg dom.guides
  , grid := renderGridLines dom.grid }

/-- The live MapTab session: the refs, the loaded world data, the
current configured projection, the clip path, and the rendered
surface. -/
structure MapSession where
  st : MapState
  world : List Feature
  config : ProjConfig
  clip : Option PathData
  dom : Dom
deriving DecidableEq

/-- `changeProjection(type, scale)` (lines 925–949): store the new
type and scale, rebuild projection and path at the container size,
refresh the clip path, and re-render every layer. -/
def changeProjection (caps : ProjCaps) (width height : ℚ) (sess : MapSession)
    (type : String) (scale : ℚ) : MapSession :=
  let st := { sess.st with currentProjectionType := type, currentScale := scale }
  let cfg := createProjection caps st type width height
  { sess with
    st := st
    config := cfg
    clip := some (cfg, Geom.sphere)
    dom := renderAll cfg st.currentViewMode sess.world sess.dom }

/-- `invalidateSize()` (lines 1322–1345): rebuild projection and path
from the current refs at the new container size, refresh the clip
path, and re-render every layer. -/
def invalidateSize (caps : ProjCaps) (sess : MapSession) (width height : ℚ) : MapSession :=
  let cfg := createProjection caps sess.st sess.st.currentProjectionType width height
  { sess with
    config := cfg
    clip := some (cfg, Geom.sphere)
    dom := renderAll cfg sess.st.currentViewMode sess.world sess.dom }

end MapTab

namespace App

/-- The combined controller state: the HomeView refs, whether the map
instance is registered with the store, and the MapTab session. -/
structure AppState where
  view : HomeView.ViewState
  mapReady : Bool
  session : MapTab.MapSession
deriving DecidableEq

/-- Outcome of a projection-selection call: the new combined state,
whether an error was reported, and whether a rebuild+render ran. -/
structure ChangeOutcome where
  state : AppState
  errorReported : Bool
  rebuilt : Bool
deriving DecidableEq

/-- `dataStore.changeProjection(projectionId)` (dataStore.js lines
870–909): catalog lookup first (unknown id → error logged, abort),
then the readiness check (not ready → error logged, deferred retry,
no rebuild now), then the MapTab rebuild with the layer's `type` and
`scale`. -/
def storeChangeProjection (caps : MapTab.ProjCaps) (width height : ℚ)
    (app : AppState) (projectionId : String) : ChangeOutcome :=
  match DataStore.findLayerById projectionId with
  | none => ⟨app, true, false⟩
  | some layer =>
    if app.mapReady then
      ⟨{ app with
          session := MapTab.changeProjection caps width height app.session
            layer.type layer.scale },
        false, true⟩
    else
      ⟨app, true, false⟩

/-- `HomeView.changeProjection(projectionId)` (HomeView.vue lines
48–56): update `currentProjection` to the layer's display name when
the id is found in the projections list, then delegate to the
store. -/
def homeChangeProjection (caps : MapTab.ProjCaps) (width height : ℚ)
    (app : AppState) (projectionId : String) : ChangeOutcome :=
  let view1 :=
    match DataStore.projectionsList.find? (fun p => p.layerId == projectionId) with
    | some p => { app.view with currentProjection := p.layerName }
    | none => app.view
  storeChangeProjection caps width height { app with view := view1 } projectionId

/-- A concrete live session used by the concrete-input witnesses: the
initial refs, an empty world, an 800×600 build of the default
projection, an empty surface. -/
def sampleSession : MapTab.MapSession :=
  { st := MapTab.initMapState, world := [],
    config := MapTab.createProjection MapTab.fullCaps MapTab.initMapState
      "AzimuthalEquidistant" 800 600,
    clip := none, dom := ⟨[], [], [], []⟩ }

/-- A concrete ready application state for the witnesses. -/
def sampleApp : AppState :=
  { view := HomeView.initViewState, mapReady := true, session := sampleSession }

end App

/-! ## Properties of the data-join model -/

theorem reattr_of_find_none {α : Type} (key : α → String) (render : α → MapTab.Elem)
    (data : List α) (e : MapTab.Elem)
    (h : data.find? (fun a => key a == e.key) = none) :
    MapTab.reattr key render data e = e := by
  unfold MapTab.reattr
  rw [h]

theorem reattr_of_find_some {α : Type} (key : α → String) (render : α → MapTab.Elem)
    (data : List α) (e : MapTab.Elem) (a : α)
    (h : data.find? (fun a => key a == e.key) = some a) :
    MapTab.reattr key render data e = render a := by
  unfold MapTab.reattr
  rw [h]

theorem reattr_key {α : Type} (key : α → String) (render : α → MapTab.Elem)
    (data : List α) (hk : ∀ a, (render a).key = key a) (e : MapTab.Elem) :
    (MapTab.reattr key render data e).key = e.key := by
  cases hfind : data.find? (fun a => key a == e.key) with
  | none => rw [reattr_of_find_none key render data e hfind]
  | some a =>
    rw [reattr_of_find_some key render data e a hfind, hk a]
    have hp := List.find?_some hfind
    exact beq_iff_eq.mp hp

theorem reattr_comp {α : Type} (key : α → String) (r1 r2 : α → MapTab.Elem)
    (data : List α) (hk2 : ∀ a, (r2 a).key = key a) (e : MapTab.Elem) :
    MapTab.reattr key r1 data (MapTab.reattr key r2 data e) =
      MapTab.reattr key r1 data e := by
  cases hfind : data.find? (fun a => key a == e.key) with
  | none => rw [reattr_of_find_none key r2 data e hfind]
  | some a =>
    rw [reattr_of_find_some key r2 data e a hfind,
        reattr_of_find_some key r1 data e a hfind]
    have hkey : (r2 a).key = e.key := by
      rw [hk2 a]
      have hp := List.find?_some hfind
      exact beq_iff_eq.mp hp
    have hfind2 : data.find? (fun b => key b == (r2 a).key) = some a := by
      rw [hkey]
      exact hfind
    rw [reattr_of_find_some key r1 data (r2 a) a hfind2]

theorem reattr_render {α : Type} (key : α → String) (r1 r2 : α → MapTab.Elem)
    (data : List α) (hk1 : ∀ a, (r1 a).key = key a) (hk2 : ∀ a, (r2 a).key = key a)
    (a : α) (ha : a ∈ data) :
    MapTab.reattr key r1 data (r2 a) = MapTab.reattr key r1 data (r1 a) := by
  cases hfind : data.find? (fun b => key b == key a) with
  | none =>
    exfalso
    have hnone := List.find?_eq_none.mp hfind a ha
    simp at hnone
  | some b =>
    have h1 : data.find? (fun c => key c == (r2 a).key) = some b := by
      rw [hk2 a]
      exact hfind
    have h2 : data.find? (fun c => key c == (r1 a).key) = some b := by
      rw [hk1 a]
      exact hfind
    rw [reattr_of_find_some key r1 data (r2 a) b h1,
        reattr_of_find_some key r1 data (r1 a) b h2]

theorem dataJoin_key_mem {α : Type} (key : α → String) (render : α → MapTab.Elem)
    (data : List α) (hk : ∀ a, (render a).key = key a) (existing : List MapTab.Elem)
    (e : MapTab.Elem) (he : e ∈ MapTab.dataJoin key render existing data) :
    data.any (fun a => key a == e.key) = true := by
  unfold MapTab.dataJoin at he
  obtain ⟨e0, h0, rfl⟩ := List.mem_map.mp he
  rw [reattr_key key render data hk e0]
  rcases List.mem_append.mp h0 with hl | hr
  · exact (List.mem_filter.mp hl).2
  · obtain ⟨a, ha, rfl⟩ := List.mem_map.mp hr
    rw [hk a]
    exact List.any_eq_true.mpr ⟨a, (List.mem_filter.mp ha).1, by simp⟩

theorem dataJoin_has_key {α : Type} (key : α → String) (render : α → MapTab.Elem)
    (data : List α) (hk : ∀ a, (render a).key = key a) (existing : List MapTab.Elem)
    (a : α) (ha : a ∈ data) :
    (MapTab.dataJoin key render existing data).any (fun e => e.key == key a) = true := by
  apply List.any_eq_true.mpr
  by_cases hex : existing.any (fun e => e.key == key a) = true
  · obtain ⟨e0, he0, hbeq⟩ := List.any_eq_true.mp hex
    refine ⟨MapTab.reattr key render data e0, ?_, ?_⟩
    · refine List.mem_map.mpr ⟨e0, List.mem_append.mpr (Or.inl ?_), rfl⟩
      refine List.mem_filter.mpr ⟨he0, ?_⟩
      refine List.any_eq_true.mpr ⟨a, ha, ?_⟩
      simp [beq_iff_eq.mp hbeq]
    · rw [reattr_key key render data hk e0]
      exact hbeq
  · have hex' : existing.any (fun e => e.key == key a) = false :=
      Bool.eq_false_iff.mpr hex
    refine ⟨MapTab.reattr key render data (render a), ?_, ?_⟩
    · refine List.mem_map.mpr ⟨render a, List.mem_append.mpr (Or.inr ?_), rfl⟩
      refine List.mem_map.mpr ⟨a, List.mem_filter.mpr ⟨ha, ?_⟩, rfl⟩
      rw [hex']
      rfl
    · rw [reattr_key key render data hk (render a), hk a]
      simp

theorem dataJoin_saturated {α : Type} (key : α → String) (render : α → MapTab.Elem)
    (existing : List MapTab.Elem) (data : List α)
    (hsat1 : existing.filter (fun e => data.any (fun a => key a == e.key)) = existing)
    (hsat2 : data.filter (fun a => !existing.any (fun e => e.key == key a)) = []) :
    MapTab.dataJoin key render existing data =
      existing.map (MapTab.reattr key render data) := by
  unfold MapTab.dataJoin
  rw [hsat1, hsat2]
  simp

theorem dataJoin_absorb {α : Type} (key : α → String) (r1 r2 : α → MapTab.Elem)
    (existing : List MapTab.Elem) (data : List α)
    (hk1 : ∀ a, (r1 a).key = key a) (hk2 : ∀ a, (r2 a).key = key a) :
    MapTab.dataJoin key r1 (MapTab.dataJoin key r2 existing data) data =
      MapTab.dataJoin key r1 existing data := by
  have hkept : (MapTab.dataJoin key r2 existing data).filter
      (fun e => data.any (fun a => key a == e.key)) =
      MapTab.dataJoin key r2 existing data :=
    List.filter_eq_self.mpr (fun e he => dataJoin_key_mem key r2 data hk2 existing e he)
  have hentered : data.filter
      (fun a => !(MapTab.dataJoin key r2 existing data).any (fun e => e.key == key a)) =
      [] := by
    apply List.filter_eq_nil_iff.mpr
    intro a ha
    rw [dataJoin_has_key key r2 data hk2 existing a ha]
    simp
  rw [dataJoin_saturated key r1 (MapTab.dataJoin key r2 existing data) data hkept hentered]
  unfold MapTab.dataJoin
  simp only [List.map_append, List.map_map]
  congr 1
  · exact List.map_congr_left (fun e _ => by
      simp only [Function.comp_apply]
      exact reattr_comp key r1 r2 data hk2 e)
  · apply List.map_congr_left
    intro a ha
    simp only [Function.comp_apply]
    rw [reattr_comp key r1 r2 data hk2 (r2 a)]
    exact reattr_render key r1 r2 data hk1 hk2 a (List.mem_filter.mp ha).1

theorem renderSphereBorder_absorb (c1 c2 : MapTab.ProjConfig) (b : List MapTab.Elem) :
    MapTab.renderSphereBorder c1 (MapTab.renderSphereBorder c2 b) =
      MapTab.renderSphereBorder c1 b := by
  unfold MapTab.renderSphereBorder
  rw [List.filter_append, List.filter_filter]
  simp [MapTab.sphereElem]

theorem renderGridLines_idem (g : List MapTab.Elem) :
    MapTab.renderGridLines (MapTab.renderGridLines g) = MapTab.renderGridLines g := by
  unfold MapTab.renderGridLines
  rw [List.filter_filter]
  simp

theorem renderCountries_absorb (c1 c2 : MapTab.ProjConfig) (vm : String)
    (world : List MapTab.Feature) (x : List MapTab.Elem) :
    MapTab.renderCountries c1 vm world (MapTab.renderCountries c2 vm world x) =
      MapTab.renderCountries c1 vm world x :=
  dataJoin_absorb _ _ _ x _ (fun _ => rfl) (fun _ => rfl)

theorem renderTaiwanGuides_absorb (c1 c2 : MapTab.ProjConfig) (g : List MapTab.Elem) :
    MapTab.renderTaiwanGuides c1 (MapTab.renderTaiwanGuides c2 g) =
      MapTab.renderTaiwanGuides c1 g :=
  dataJoin_absorb _ _ _ g _ (fun _ => rfl) (fun _ => rfl)

theorem renderAll_absorb (c1 c2 : MapTab.ProjConfig) (vm : String)
    (world : List MapTab.Feature) (dom : MapTab.Dom) :
    MapTab.renderAll c1 vm world (MapTab.renderAll c2 vm world dom) =
      MapTab.renderAll c1 vm world dom := by
  unfold MapTab.renderAll
  dsimp only
  rw [renderSphereBorder_absorb, renderCountries_absorb, renderTaiwanGuides_absorb,
    renderGridLines_idem]

theorem findLayerById_eq_find (layerId : String) :
    DataStore.findLayerById layerId =
      DataStore.projectionsList.find? (fun l => l.layerId == layerId) := by
  cases hc : DataStore.projectionCatalog.find? (fun l => l.layerId == layerId) <;>
    simp [DataStore.findLayerById, DataStore.layers, DataStore.projectionsList, hc]

/-! ## Claims -/

/-- C10: `isHomeCountry` returns `false` for `null`/`undefined`/empty
names, and otherwise returns `true` exactly when the name trimmed of
surrounding whitespace equals `"Taiwan"`. -/
theorem C10_isHomeCountry_trim_spec :
    DataStore.isHomeCountry none = false ∧
    DataStore.isHomeCountry (some "") = false ∧
    ∀ s : String, s ≠ "" →
      (DataStore.isHomeCountry (some s) = true ↔ DataStore.jsTrim s = "Taiwan") := by
  refine ⟨rfl, rfl, ?_⟩
  intro s hs
  simp [DataStore.isHomeCountry, DataStore.homeCountry, hs]

/-- Witness for C10 at the concrete name `" Taiwan "` (the home
country up to surrounding whitespace). -/
theorem C10_isHomeCountry_trim_spec_witness :
    DataStore.isHomeCountry (some " Taiwan ") = true :=
  (C10_isHomeCountry_trim_spec.2.2 " Taiwan " (by decide)).mpr (by decide)

/-- C1 counterexample: from the initial state, `setViewMode('taiwan')`
followed by `setCenterMode('origin')` is a reachable two-step run; the
second step is not a no-op and leaves `viewMode = 'taiwan'` with
`centerMode = 'origin'`, so the claimed invariant fails on reachable
states. -/
theorem C1_invariant_counterexample :
    let s1 := HomeView.setViewMode HomeView.initViewState "taiwan"
    let s2 := HomeView.setCenterMode s1 "origin"
    s1.viewMode = "taiwan" ∧ s1.centerMode = "taiwan" ∧
    s2.viewMode = "taiwan" ∧ s2.centerMode = "origin" ∧ s2 ≠ s1 := by
  refine ⟨rfl, rfl, rfl, rfl, ?_⟩
  decide

/-- C1 amended: `setViewMode` forces `centerMode = 'taiwan'` in the
same transition whenever the resulting `viewMode` is `'taiwan'`; but
`setCenterMode` updates `centerMode` unconditionally (it is never a
no-op on a differing mode), so the invariant holds immediately after
any `setViewMode` call and is not preserved by `setCenterMode`. -/
theorem C1_forced_center_amended (s : HomeView.ViewState) (mode : String) :
    ((HomeView.setViewMode s mode).viewMode = "taiwan" →
      (HomeView.setViewMode s mode).centerMode = "taiwan") ∧
    (∀ m : String, (HomeView.setCenterMode s m).centerMode = m) := by
  constructor
  · intro h
    unfold HomeView.setViewMode at *
    by_cases hm : mode == "taiwan"
    · simp [hm, HomeView.setCenterMode]
    · simp [hm] at h
  · intro m
    rfl

/-- Witness for C1 amended at the initial state: entering taiwan view
forces the taiwan center, and a later `setCenterMode('lon120')` indeed
stores `'lon120'`. -/
theorem C1_forced_center_amended_witness :
    (HomeView.setViewMode HomeView.initViewState "taiwan").centerMode = "taiwan" ∧
    (HomeView.setCenterMode (HomeView.setViewMode HomeView.initViewState "taiwan") "lon120").centerMode = "lon120" :=
  ⟨(C1_forced_center_amended HomeView.initViewState "taiwan").1 (by decide),
   (C1_forced_center_amended (HomeView.setViewMode HomeView.initViewState "taiwan") "x").2 "lon120"⟩

/-- C2 counterexample: at canvas 800×600 with a fully capable
projection, the object passed to the fitting step in home-country-only
view equals the one in world view — both are the full-sphere outline,
never the home country's geometry bounds. -/
theorem C2_fit_target_counterexample :
    (MapTab.applyFitStage "AzimuthalEquidistant" "taiwan" MapTab.fullCaps 800 600 5000).target =
      (MapTab.applyFitStage "AzimuthalEquidistant" "world" MapTab.fullCaps 800 600 5000).target ∧
    (MapTab.applyFitStage "AzimuthalEquidistant" "taiwan" MapTab.fullCaps 800 600 5000).target =
      some MapTab.FitTarget.sphere :=
  ⟨rfl, rfl⟩

/-- C2 amended: whenever the fitting step runs, its target is the
full-sphere outline regardless of view mode (`getFitTarget` is
constant); the only view-mode dependence in the build is that the
explicit pre-fit `center([0,0])` branch is reserved for world view. -/
theorem C2_fit_target_is_sphere_amended (type vm : String) (caps : MapTab.ProjCaps)
    (w h cs : ℚ) (hfe : caps.hasFitExtent = true) (hnr : caps.fitRaises = false) :
    (MapTab.applyFitStage type vm caps w h cs).target = some MapTab.FitTarget.sphere ∧
    (vm ≠ "world" →
      (MapTab.applyFitStage type vm caps w h cs).method ≠ MapTab.FitMethod.centeredFit) := by
  constructor
  · unfold MapTab.applyFitStage
    rw [hfe, hnr, if_pos rfl, if_neg (by decide)]
    split
    · rfl
    · split <;> rfl
  · intro hvm
    have hv : (vm == "world") = false := beq_eq_false_iff_ne.mpr hvm
    by_cases h1 : type == "ConicConformal" <;>
      simp [MapTab.applyFitStage, hfe, hnr, h1, hv]

/-- Witness for C2 amended at a concrete non-world call. -/
theorem C2_fit_target_is_sphere_amended_witness :
    (MapTab.applyFitStage "Mercator" "taiwan" MapTab.fullCaps 800 600 5000).target =
      some MapTab.FitTarget.sphere ∧
    (MapTab.applyFitStage "Mercator" "taiwan" MapTab.fullCaps 800 600 5000).method ≠
      MapTab.FitMethod.centeredFit :=
  ⟨(C2_fit_target_is_sphere_amended "Mercator" "taiwan" MapTab.fullCaps 800 600 5000 rfl rfl).1,
   (C2_fit_target_is_sphere_amended "Mercator" "taiwan" MapTab.fullCaps 800 600 5000 rfl rfl).2
     (by decide)⟩

/-- C3 counterexample: `Stereographic` is missing from
`supportsCenterMethod`, so in world view at 800×600 a fully capable
stereographic projection is fitted through the plain branch without
the explicit `center([0,0])` call. -/
theorem C3_stereographic_counterexample :
    MapTab.supportsCenterMethod.contains "Stereographic" = false ∧
    (MapTab.applyFitStage "Stereographic" "world" MapTab.fullCaps 800 600 5000).method =
      MapTab.FitMethod.plainFit := by
  exact ⟨rfl, rfl⟩

/-- C3 amended: the explicit `center([0,0])`-before-fit step applies
to the azimuthal projections listed in `supportsCenterMethod`
(azimuthal-equal-area, azimuthal-equidistant, gnomonic, orthographic)
in world view, but not to stereographic, which is fitted through the
plain branch. -/
theorem C3_centered_fit_amended (caps : MapTab.ProjCaps) (w h cs : ℚ)
    (hfe : caps.hasFitExtent = true) (hnr : caps.fitRaises = false)
    (hc : caps.hasCenter = true) :
    (∀ type ∈ (["AzimuthalEqualArea", "AzimuthalEquidistant", "Gnomonic",
        "Orthographic"] : List String),
      (MapTab.applyFitStage type "world" caps w h cs).method = MapTab.FitMethod.centeredFit) ∧
    (MapTab.applyFitStage "Stereographic" "world" caps w h cs).method =
      MapTab.FitMethod.plainFit := by
  constructor
  · intro type ht
    fin_cases ht <;> simp [MapTab.applyFitStage, hfe, hnr, hc, MapTab.supportsCenterMethod]
  · simp [MapTab.applyFitStage, hfe, hnr, hc, MapTab.supportsCenterMethod]

/-- Witness for C3 amended at a fully capable projection on an
800×600 canvas. -/
theorem C3_centered_fit_amended_witness :
    (MapTab.applyFitStage "Orthographic" "world" MapTab.fullCaps 800 600 5000).method =
      MapTab.FitMethod.centeredFit ∧
    (MapTab.applyFitStage "Stereographic" "world" MapTab.fullCaps 800 600 5000).method =
      MapTab.FitMethod.plainFit :=
  ⟨(C3_centered_fit_amended MapTab.fullCaps 800 600 5000 rfl rfl rfl).1 "Orthographic"
      (by decide),
   (C3_centered_fit_amended MapTab.fullCaps 800 600 5000 rfl rfl rfl).2⟩

/-- C4 counterexample: the post-fit multiplier actually applied to the
conic-conformal fit is the component's `conicConformalScale` value
(5000 initially), while the catalog descriptor's `scale` field for
`ConicConformal` is 100 — so the post-fit scale is not the fitted
scale times the descriptor's multiplier. -/
theorem C4_rescale_counterexample :
    (MapTab.applyFitStage "ConicConformal" "world" MapTab.fullCaps 800 600
        MapTab.initMapState.conicConformalScale).rescale = some 5000 ∧
    (DataStore.findLayerById "ConicConformal").map DataStore.Layer.scale = some 100 ∧
    MapTab.postFitScale
        (MapTab.applyFitStage "ConicConformal" "world" MapTab.fullCaps 800 600
          MapTab.initMapState.conicConformalScale) 1 ≠ 100 * 1 := by
  refine ⟨rfl, rfl, ?_⟩
  show (1 * 5000 : ℚ) ≠ 100 * 1
  norm_num

/-- C4 amended: after fitting, the conic-conformal branch multiplies
the fitted scale by the component's `conicConformalScale` ref (whose
initial value is 5000), not by the catalog descriptor's `scale` field
(which is 100 for `ConicConformal`). -/
theorem C4_conic_conformal_rescale_amended (vm : String) (caps : MapTab.ProjCaps)
    (w h cs fitted : ℚ) (hfe : caps.hasFitExtent = true) (hnr : caps.fitRaises = false) :
    (MapTab.applyFitStage "ConicConformal" vm caps w h cs).rescale = some cs ∧
    MapTab.postFitScale (MapTab.applyFitStage "ConicConformal" vm caps w h cs) fitted =
      fitted * cs ∧
    MapTab.initMapState.conicConformalScale = 5000 ∧
    (DataStore.findLayerById "ConicConformal").map DataStore.Layer.scale = some 100 := by
  refine ⟨?_, ?_, rfl, rfl⟩ <;>
    simp [MapTab.applyFitStage, MapTab.postFitScale, hfe, hnr]

/-- Witness for C4 amended: fitted scale 2 becomes 2 · 5000 =
10000. -/
theorem C4_conic_conformal_rescale_amended_witness :
    MapTab.postFitScale
        (MapTab.applyFitStage "ConicConformal" "world" MapTab.fullCaps 800 600 5000) 2 =
      (10000 : ℚ) := by
  have h := (C4_conic_conformal_rescale_amended "world" MapTab.fullCaps 800 600 5000 2
    rfl rfl).2.1
  rw [h]
  norm_num

/-- C6: the fitting stage never lets an exception escape; when the
projection has no fitting capability (or fitting raised and the
guarded fallback runs), the manual configuration is scale
`min(width, height) / 2 - padding` and translate
`[width / 2, height / 2]`. -/
theorem C6_manual_fallback_total (type vm : String) (caps : MapTab.ProjCaps) (w h cs : ℚ) :
    (MapTab.applyFitStage type vm caps w h cs).propagates = false ∧
    (caps.hasFitExtent = false → caps.hasScale = true → caps.hasTranslate = true →
      (MapTab.applyFitStage type vm caps w h cs).manualScale =
          some (min w h / 2 - MapTab.padding) ∧
      (MapTab.applyFitStage type vm caps w h cs).manualTranslate = some (w / 2, h / 2)) ∧
    (caps.hasFitExtent = true → caps.fitRaises = true → caps.hasScale = true →
      caps.hasTranslate = true → caps.fallbackRaises = false →
      (MapTab.applyFitStage type vm caps w h cs).manualScale =
          some (min w h / 2 - MapTab.padding) ∧
      (MapTab.applyFitStage type vm caps w h cs).manualTranslate = some (w / 2, h / 2)) := by
  refine ⟨?_, ?_, ?_⟩
  · unfold MapTab.applyFitStage
    split <;> split <;> first | rfl | (split <;> first | rfl | (split <;> rfl))
  · intro hfe hs ht
    simp [MapTab.applyFitStage, hfe, hs, ht]
  · intro hfe hr hs ht hfb
    simp [MapTab.applyFitStage, hfe, hr, hs, ht, hfb]

/-- Witness for C6 at a projection exposing only `scale`/`translate`
on an 800×600 canvas: manual scale 600/2 − 32 = 268, translate the
canvas center (400, 300). -/
theorem C6_manual_fallback_total_witness :
    (MapTab.applyFitStage "Gilbert" "world"
        ⟨true, false, false, false, true, true, false, false⟩ 800 600 5000).manualScale =
      some (268 : ℚ) ∧
    (MapTab.applyFitStage "Gilbert" "world"
        ⟨true, false, false, false, true, true, false, false⟩ 800 600 5000).manualTranslate =
      some ((400 : ℚ), (300 : ℚ)) := by
  have h := (C6_manual_fallback_total "Gilbert" "world"
    ⟨true, false, false, false, true, true, false, false⟩ 800 600 5000).2.1 rfl rfl rfl
  refine ⟨?_, ?_⟩
  · rw [h.1]; norm_num [MapTab.padding]
  · rw [h.2]; norm_num

/-- C5: selecting a projection id that is absent from the catalog
leaves the whole application state unchanged (in particular the
current projection selection), reports an error, and triggers no
rebuild/render — for every unknown id and every prior state. -/
theorem C5_unknown_projection_noop (caps : MapTab.ProjCaps) (w h : ℚ)
    (app : App.AppState) (projectionId : String)
    (hid : DataStore.findLayerById projectionId = none) :
    App.homeChangeProjection caps w h app projectionId =
      ⟨app, true, false⟩ := by
  have hfind : DataStore.projectionsList.find? (fun p => p.layerId == projectionId) =
      none := by
    rw [← findLayerById_eq_find]
    exact hid
  unfold App.homeChangeProjection App.storeChangeProjection
  rw [hfind, hid]

/-- Witness for C5 at the concrete unknown id `"FooBar"` from a
concrete live state. -/
theorem C5_unknown_projection_noop_witness :
    App.homeChangeProjection MapTab.fullCaps 800 600 App.sampleApp "FooBar" =
      ⟨App.sampleApp, true, false⟩ :=
  C5_unknown_projection_noop MapTab.fullCaps 800 600 App.sampleApp "FooBar" rfl

/-- C7: whenever the fitting step runs, the fit extent is the canvas
rectangle inset by the fixed padding 32 on all four sides, and
`invalidateSize` at new dimensions rebuilds with the extent derived
from those new dimensions (the old dimensions do not appear). -/
theorem C7_fit_extent_padding (caps : MapTab.ProjCaps) (sess : MapTab.MapSession)
    (w h : ℚ) (hfe : caps.hasFitExtent = true) (hnr : caps.fitRaises = false) :
    MapTab.padding = 32 ∧
    (MapTab.invalidateSize caps sess w h).config.fit.extent =
      some ((32, 32), (w - 32, h - 32)) ∧
    (∀ (type : String) (w2 h2 : ℚ),
      (MapTab.createProjection caps sess.st type w2 h2).fit.extent =
        some ((MapTab.padding, MapTab.padding),
          (w2 - MapTab.padding, h2 - MapTab.padding))) := by
  have hext : ∀ (type : String) (w2 h2 : ℚ),
      (MapTab.createProjection caps sess.st type w2 h2).fit.extent =
        some ((MapTab.padding, MapTab.padding),
          (w2 - MapTab.padding, h2 - MapTab.padding)) := by
    intro type w2 h2
    unfold MapTab.createProjection
    dsimp only
    unfold MapTab.applyFitStage
    rw [hfe, hnr, if_pos rfl, if_neg (by decide)]
    split
    · rfl
    · split <;> rfl
  refine ⟨rfl, ?_, hext⟩
  unfold MapTab.invalidateSize
  dsimp only
  exact hext sess.st.currentProjectionType w h

/-- Witness for C7 at a concrete session resized to 1024×768: the
extent is `[[32, 32], [992, 736]]`. -/
theorem C7_fit_extent_padding_witness :
    (MapTab.invalidateSize MapTab.fullCaps App.sampleSession 1024 768).config.fit.extent =
      some (((32 : ℚ), (32 : ℚ)), ((992 : ℚ), (736 : ℚ))) := by
  have h := (C7_fit_extent_padding MapTab.fullCaps App.sampleSession 1024 768 rfl rfl).2.1
  rw [h]
  norm_num

/-- C8: the rebuild is stateless and deterministic given the same refs
and canvas size: selecting conic-conformal, then mercator, then
conic-conformal again produces exactly the same session (same refs,
same configured projection, same clip path, same rendered surface) as
selecting conic-conformal once. -/
theorem C8_round_trip_stateless (caps : MapTab.ProjCaps) (w h s1 s2 : ℚ)
    (sess : MapTab.MapSession) :
    MapTab.changeProjection caps w h
        (MapTab.changeProjection caps w h
          (MapTab.changeProjection caps w h sess "ConicConformal" s1) "Mercator" s2)
        "ConicConformal" s1 =
      MapTab.changeProjection caps w h sess "ConicConformal" s1 := by
  unfold MapTab.changeProjection
  dsimp only
  rw [renderAll_absorb, renderAll_absorb]

/-- C9: rendering is idempotent — re-running the full render sequence
on its own output changes nothing (each class-scoped layer is fully
replaced, so no drawn elements accumulate), and the border layer holds
exactly the one sphere outline after any render. -/
theorem C9_render_idempotent (cfg : MapTab.ProjConfig) (vm : String)
    (world : List MapTab.Feature) (dom : MapTab.Dom) :
    MapTab.renderAll cfg vm world (MapTab.renderAll cfg vm world dom) =
      MapTab.renderAll cfg vm world dom ∧
    (MapTab.renderAll cfg vm world dom).border.filter
        (fun e => e.cls == "sphere") = [MapTab.sphereElem cfg] := by
  constructor
  · exact renderAll_absorb cfg cfg vm world dom
  · show (MapTab.renderSphereBorder cfg dom.border).filter (fun e => e.cls == "sphere") =
      [MapTab.sphereElem cfg]
    unfold MapTab.renderSphereBorder
    rw [List.filter_append, List.filter_filter]
    simp [MapTab.sphereElem]
